import Mathlib

/-!
# fuse-dfs: `dfs_unlink`

A shallow embedding of `dfs_unlink` from
`hadoop-hdfs/src/contrib/fuse-dfs/src/fuse_impls_unlink.c`, together with the
properties of its policy gate, connection life cycle and error-code mapping.

The function talks to three collaborators of the HDFS client layer
(`doConnectAsUser`, `hdfsDeleteWithTrash`, `doDisconnect`), to the
protected-path predicate `is_protected` and to the logging macros `TRACE1` and
`ERROR`.  None of them is defined in `fuse_impls_unlink.c`; they are parameters
of the embedding.  Every call to a client collaborator may depend on the whole
state of the world at the moment of the call, may change `errno`, and is
appended to a log of calls.  A logging statement prints; it may depend on the
world and may change `errno` as well, and it is not a call to the client layer.
In particular the `errno` that line 54 reads is the one in force after the
`ERROR` statement of line 53.
-/

namespace FuseDfs

/-! ## C integers -/

/-- Smallest value of the C type `int` (32 bits, two's complement). -/
def INT_MIN : Int := -2147483648

/-- Largest value of the C type `int`. -/
def INT_MAX : Int := 2147483647

/-- Reduction of a mathematical integer to the 32-bit two's-complement range. -/
def wrap32 (x : Int) : Int := (x + 2147483648) % 4294967296 - 2147483648

/-- Unary minus of the C type `int`. -/
def neg32 (x : Int) : Int := wrap32 (-x)

/-- Values that an object of the C type `int` (such as `errno`) can hold. -/
structure CInt where
  val : Int
  lo : INT_MIN ≤ val
  hi : val ≤ INT_MAX

/-- The two error numbers of `<errno.h>` used by `dfs_unlink`.  The header is
not part of the source tree, so the values are parameters; ISO C only fixes that
they are positive values of type `int`. -/
structure errno_h where
  EACCES : Int
  EIO : Int
  EACCES_pos : 0 < EACCES
  EACCES_le : EACCES ≤ INT_MAX
  EIO_pos : 0 < EIO
  EIO_le : EIO ≤ INT_MAX

/-- The values of `EACCES` and `EIO` on Linux (`asm-generic/errno-base.h`). -/
def linux_errno : errno_h := ⟨13, 5, by decide, by decide, by decide, by decide⟩

/-! ## Data model -/

/-- A connection handle `hdfsFS` (a pointer); the null pointer is `0`. -/
abbrev hdfsFS := Nat

/-- The null pointer. -/
def NULL : hdfsFS := 0

/-- The fields of the per-mount `dfs_context` that `dfs_unlink` reads. -/
structure dfs_context where
  nn_hostname : String
  nn_port : Int
  read_only : Int
  usetrash : Int

/-- A completed call to a collaborator of the HDFS client layer: its arguments
and the value it returned. -/
inductive Call where
  | doConnectAsUser (hostname : String) (port : Int) (result : hdfsFS)
  | hdfsDeleteWithTrash (userFS : hdfsFS) (path : String) (usetrash : Int) (result : Int)
  | doDisconnect (userFS : hdfsFS) (result : Int)
deriving DecidableEq, Repr

/-- The state the function runs in: the current `errno` and the calls made to
the client collaborators so far, oldest first. -/
structure World where
  errno : CInt
  calls : List Call

/-- The functions and macros `dfs_unlink` uses that are defined elsewhere.  A
client collaborator sees the world at the time of the call and yields its return
value together with the `errno` it leaves behind.  A logging macro (`TRACE1`
with its two arguments, `ERROR` with its format and the arguments that follow
it) yields the `errno` it leaves behind. -/
structure Collaborators where
  is_protected : String → Int
  doConnectAsUser : String → Int → World → hdfsFS × CInt
  hdfsDeleteWithTrash : hdfsFS → String → Int → World → Int × CInt
  doDisconnect : hdfsFS → World → Int × CInt
  TRACE1 : String → String → World → CInt
  ERROR : String → List String → World → CInt

/-- The character `*path` of a C string: its first character, or NUL when the
string is empty. -/
def deref (path : String) : Char := path.data.headD (Char.ofNat 0)

/-! ## Logging statements and the three call sites -/

/-- The statement `TRACE1(x, y)`: the call log is untouched, `errno` is what the
macro leaves. -/
def callTRACE1 (env : Collaborators) (x y : String) (w : World) : World :=
  World.mk (env.TRACE1 x y w) w.calls

/-- The statement `ERROR(fmt, args...)`: the call log is untouched, `errno` is
what the macro leaves. -/
def callERROR (env : Collaborators) (fmt : String) (args : List String) (w : World) : World :=
  World.mk (env.ERROR fmt args w) w.calls

/-- Line 46: `doConnectAsUser(dfs->nn_hostname, dfs->nn_port)`. -/
def callConnect (env : Collaborators) (dfs : dfs_context) (w : World) : hdfsFS × World :=
  let r := env.doConnectAsUser dfs.nn_hostname dfs.nn_port w
  (r.1, World.mk r.2 (w.calls ++ [Call.doConnectAsUser dfs.nn_hostname dfs.nn_port r.1]))

/-- Line 52: `hdfsDeleteWithTrash(userFS, path, dfs->usetrash)`. -/
def callDelete (env : Collaborators) (dfs : dfs_context) (path : String) (userFS : hdfsFS)
    (w : World) : Int × World :=
  let r := env.hdfsDeleteWithTrash userFS path dfs.usetrash w
  (r.1, World.mk r.2 (w.calls ++ [Call.hdfsDeleteWithTrash userFS path dfs.usetrash r.1]))

/-- Line 59: `doDisconnect(userFS)`. -/
def callDisconnect (env : Collaborators) (userFS : hdfsFS) (w : World) : Int × World :=
  let r := env.doDisconnect userFS w
  (r.1, World.mk r.2 (w.calls ++ [Call.doDisconnect userFS r.1]))

/-! ## `dfs_unlink` -/

/-- The function `dfs_unlink` of `fuse_impls_unlink.c`.  The result is the
returned `int`, or `none` when `assert('/' == *path)` aborts the process,
paired with the world the function leaves behind.  `path` and `dfs` are not
null by their types.  The logging statements of lines 27, 37, 42, 48 and 53 run
where the source has them; `atCleanup` is the value of `ret` and the world on
reaching the label `cleanup`. -/
def dfs_unlink (c : errno_h) (env : Collaborators) (dfs : dfs_context) (path : String)
    (w : World) : Option Int × World :=
  let w27 := callTRACE1 env "unlink" path w
  if ¬ ('/' = deref path) then (none, w27)
  else if env.is_protected path ≠ 0 then
    (some (neg32 c.EACCES), callERROR env "Trying to delete protected directory %s" [path] w27)
  else if dfs.read_only ≠ 0 then
    (some (neg32 c.EACCES),
      callERROR env "HDFS configured read-only, cannot create directory %s" [path] w27)
  else
    let conn := callConnect env dfs w27
    let userFS := conn.1
    if userFS = NULL then (some (neg32 c.EIO), callERROR env "Could not connect" [] conn.2)
    else
      let del := callDelete env dfs path userFS conn.2
      let atCleanup : Int × World :=
        if del.1 ≠ 0 then
          let w53 := callERROR env "Could not delete file %s" [path] del.2
          (if w53.errno.val > 0 then neg32 w53.errno.val else neg32 c.EIO, w53)
        else (0, del.2)
      let disc := callDisconnect env userFS atCleanup.2
      let ret : Int := if disc.1 ≠ 0 then neg32 c.EIO else atCleanup.1
      (some ret, disc.2)

/-! ## Observations of one invocation -/

/-- The outcome of the connect call of an invocation started in `w`: line 46,
reached after the trace statement of line 27. -/
def connectOutcome (env : Collaborators) (dfs : dfs_context) (path : String) (w : World) :
    hdfsFS × World :=
  callConnect env dfs (callTRACE1 env "unlink" path w)

/-- The handle returned by the connect call of an invocation started in `w`. -/
def connectResult (env : Collaborators) (dfs : dfs_context) (path : String) (w : World) :
    hdfsFS :=
  (connectOutcome env dfs path w).1

/-- The outcome of the delete call made on the handle the connect call returned. -/
def deleteOutcome (env : Collaborators) (dfs : dfs_context) (path : String) (w : World) :
    Int × World :=
  callDelete env dfs path (connectOutcome env dfs path w).1 (connectOutcome env dfs path w).2

/-- The return value of the delete call. -/
def deleteResult (env : Collaborators) (dfs : dfs_context) (path : String) (w : World) : Int :=
  (deleteOutcome env dfs path w).1

/-- The world in which line 54 runs after a failed delete: the one the `ERROR`
statement of line 53 leaves. -/
def captureWorld (env : Collaborators) (dfs : dfs_context) (path : String) (w : World) :
    World :=
  callERROR env "Could not delete file %s" [path] (deleteOutcome env dfs path w).2

/-- The captured error number: the value of `errno` that line 54 reads after a
failed delete, that is the value in force after the delete call of line 52 and
the `ERROR` statement of line 53. -/
def capturedErrno (env : Collaborators) (dfs : dfs_context) (path : String) (w : World) : Int :=
  (captureWorld env dfs path w).errno.val

/-- The world at the label `cleanup`. -/
def cleanupWorld (env : Collaborators) (dfs : dfs_context) (path : String) (w : World) :
    World :=
  if deleteResult env dfs path w ≠ 0 then captureWorld env dfs path w
  else (deleteOutcome env dfs path w).2

/-- The return value of the disconnect call of line 59. -/
def disconnectResult (env : Collaborators) (dfs : dfs_context) (path : String) (w : World) :
    Int :=
  (callDisconnect env (connectOutcome env dfs path w).1 (cleanupWorld env dfs path w)).1

/-- The calls an invocation started in `w` adds to the log. -/
def callsMade (c : errno_h) (env : Collaborators) (dfs : dfs_context) (path : String)
    (w : World) : List Call :=
  (dfs_unlink c env dfs path w).2.calls.drop w.calls.length

/-! ## Concrete scenarios -/

/-- A value of type `int` from a small natural number. -/
def smallInt (n : Fin 1000) : CInt :=
  ⟨(n.val : Int), by unfold INT_MIN; omega, by unfold INT_MAX; omega⟩

/-- A world with `errno` cleared and an empty call log. -/
def freshWorld : World := ⟨smallInt 0, []⟩

/-- A read-write, trash-enabled mount. -/
def rwMount : dfs_context := ⟨"namenode", 8020, 0, 1⟩

/-- A read-only mount. -/
def roMount : dfs_context := ⟨"namenode", 8020, 1, 1⟩

/-- Collaborators with scripted outcomes: exactly the paths listed in `prot`
are protected, connect returns `fs`, a failing delete returns `del` and leaves
`errno = e`, disconnect returns `disc`, and logging leaves `errno` as it is. -/
def scripted (prot : List String) (fs : hdfsFS) (del : Int) (e : Fin 1000) (disc : Int) :
    Collaborators where
  is_protected := fun p => if p ∈ prot then 1 else 0
  doConnectAsUser := fun _ _ w => (fs, w.errno)
  hdfsDeleteWithTrash := fun _ _ _ w => (del, if del = 0 then w.errno else smallInt e)
  doDisconnect := fun _ w => (disc, w.errno)
  TRACE1 := fun _ _ w => w.errno
  ERROR := fun _ _ w => w.errno

/-- The scripted collaborators with a logger that fails: every `ERROR` statement
leaves `errno = 9`. -/
def scriptedNoisy (prot : List String) (fs : hdfsFS) (del : Int) (e : Fin 1000) (disc : Int) :
    Collaborators where
  is_protected := (scripted prot fs del e disc).is_protected
  doConnectAsUser := (scripted prot fs del e disc).doConnectAsUser
  hdfsDeleteWithTrash := (scripted prot fs del e disc).hdfsDeleteWithTrash
  doDisconnect := (scripted prot fs del e disc).doDisconnect
  TRACE1 := fun _ _ w => w.errno
  ERROR := fun _ _ _ => smallInt 9

/-! ## Auxiliary facts -/

/-- Negating a positive `int` does not wrap. -/
theorem neg32_of_pos (x : Int) (h0 : 0 < x) (h1 : x ≤ INT_MAX) : neg32 x = -x := by
  unfold INT_MAX at h1
  unfold neg32 wrap32
  omega

/-- The code `-EACCES` is the mathematical negation of `EACCES`. -/
theorem neg32_EACCES (c : errno_h) : neg32 c.EACCES = - c.EACCES :=
  neg32_of_pos _ c.EACCES_pos c.EACCES_le

/-- The code `-EIO` is the mathematical negation of the I/O error number. -/
theorem neg32_EIO_eq (c : errno_h) : neg32 c.EIO = - c.EIO :=
  neg32_of_pos _ c.EIO_pos c.EIO_le

/-- Negating a captured positive `errno` does not wrap. -/
theorem neg32_capturedErrno (env : Collaborators) (dfs : dfs_context) (path : String)
    (w : World) (h : 0 < capturedErrno env dfs path w) :
    neg32 (capturedErrno env dfs path w) = - capturedErrno env dfs path w :=
  neg32_of_pos _ h (captureWorld env dfs path w).errno.hi

/-- When the `ERROR` statement of line 53 leaves `errno` alone, the captured error
number is the one the delete call left behind. -/
theorem capturedErrno_of_quiet_logging (env : Collaborators) (dfs : dfs_context)
    (path : String) (w : World)
    (hquiet : env.ERROR "Could not delete file %s" [path] (deleteOutcome env dfs path w).2 =
      (deleteOutcome env dfs path w).2.errno) :
    capturedErrno env dfs path w = (deleteOutcome env dfs path w).2.errno.val := by
  unfold capturedErrno captureWorld callERROR
  simp [hquiet]

/-- A logging statement adds nothing to the call log. -/
theorem callERROR_calls (env : Collaborators) (fmt : String) (args : List String)
    (w : World) : (callERROR env fmt args w).calls = w.calls := rfl

/-- The trace statement adds nothing to the call log. -/
theorem callTRACE1_calls (env : Collaborators) (x y : String) (w : World) :
    (callTRACE1 env x y w).calls = w.calls := rfl

/-- An invocation rejected by `assert('/' == *path)` returns nothing; only the
trace statement has run. -/
theorem dfs_unlink_of_assert_fails (c : errno_h) (env : Collaborators) (dfs : dfs_context)
    (path : String) (w : World) (hsep : ¬ ('/' = deref path)) :
    dfs_unlink c env dfs path w = (none, callTRACE1 env "unlink" path w) := by
  unfold dfs_unlink
  simp [hsep]

/-- An invocation on a protected path. -/
theorem dfs_unlink_of_protected (c : errno_h) (env : Collaborators) (dfs : dfs_context)
    (path : String) (w : World) (hsep : '/' = deref path) (hprot : env.is_protected path ≠ 0) :
    dfs_unlink c env dfs path w =
      (some (neg32 c.EACCES),
        callERROR env "Trying to delete protected directory %s" [path]
          (callTRACE1 env "unlink" path w)) := by
  unfold dfs_unlink
  simp [← hsep, hprot]

/-- An invocation on an unprotected path of a read-only mount. -/
theorem dfs_unlink_of_read_only (c : errno_h) (env : Collaborators) (dfs : dfs_context)
    (path : String) (w : World) (hsep : '/' = deref path) (hprot : env.is_protected path = 0)
    (hro : dfs.read_only ≠ 0) :
    dfs_unlink c env dfs path w =
      (some (neg32 c.EACCES),
        callERROR env "HDFS configured read-only, cannot create directory %s" [path]
          (callTRACE1 env "unlink" path w)) := by
  unfold dfs_unlink
  simp [← hsep, hprot, hro]

/-- An invocation that passes the policy checks and fails to connect. -/
theorem dfs_unlink_of_connect_fails (c : errno_h) (env : Collaborators) (dfs : dfs_context)
    (path : String) (w : World) (hsep : '/' = deref path) (hprot : env.is_protected path = 0)
    (hro : dfs.read_only = 0) (hconn : connectResult env dfs path w = NULL) :
    dfs_unlink c env dfs path w =
      (some (neg32 c.EIO), callERROR env "Could not connect" [] (connectOutcome env dfs path w).2)
      := by
  unfold connectResult connectOutcome at hconn
  unfold dfs_unlink connectOutcome
  simp [← hsep, hprot, hro, hconn]

/-- An invocation that passes the policy checks and connects: the value returned
and the world left behind, in terms of the outcomes of the delete and disconnect
calls. -/
theorem dfs_unlink_of_connected (c : errno_h) (env : Collaborators) (dfs : dfs_context)
    (path : String) (w : World) (hsep : '/' = deref path) (hprot : env.is_protected path = 0)
    (hro : dfs.read_only = 0) (hconn : connectResult env dfs path w ≠ NULL) :
    dfs_unlink c env dfs path w =
      (some (if disconnectResult env dfs path w ≠ 0 then neg32 c.EIO
             else if deleteResult env dfs path w ≠ 0 then
               (if capturedErrno env dfs path w > 0 then neg32 (capturedErrno env dfs path w)
                else neg32 c.EIO)
             else 0),
       (callDisconnect env (connectOutcome env dfs path w).1 (cleanupWorld env dfs path w)).2)
      := by
  unfold connectResult connectOutcome at hconn
  unfold dfs_unlink disconnectResult cleanupWorld deleteResult capturedErrno captureWorld
    deleteOutcome connectOutcome
  by_cases hdel : (callDelete env dfs path (callConnect env dfs (callTRACE1 env "unlink" path w)).1
      (callConnect env dfs (callTRACE1 env "unlink" path w)).2).1 = 0
  · simp [← hsep, hprot, hro, hconn, hdel]
  · simp [← hsep, hprot, hro, hconn, hdel]

/-- The log after the connect call. -/
theorem connectOutcome_calls (env : Collaborators) (dfs : dfs_context) (path : String)
    (w : World) :
    (connectOutcome env dfs path w).2.calls =
      w.calls ++
        [Call.doConnectAsUser dfs.nn_hostname dfs.nn_port (connectResult env dfs path w)] := by
  rfl

/-- The error number is read after the logging statement of line 53: when the
failed delete leaves `errno = 17` and the `ERROR` statement leaves `errno = 9`,
the captured error number is `9` and `dfs_unlink` returns `-9`. -/
theorem dfs_unlink_reads_errno_after_logging :
    (deleteOutcome (scriptedNoisy [] 7 (-1) 17 0) rwMount
        "/user/alice/file.txt" freshWorld).2.errno.val = 17 ∧
    capturedErrno (scriptedNoisy [] 7 (-1) 17 0) rwMount "/user/alice/file.txt" freshWorld = 9 ∧
    (dfs_unlink linux_errno (scriptedNoisy [] 7 (-1) 17 0) rwMount
        "/user/alice/file.txt" freshWorld).1 = some (-9) := by
  decide

/-! ## Error-code mapping after a successful connect -/

/-- C2, as stated, fails: with `errno = 2` after the failed delete and a failing
disconnect, every premise of the claim holds and `dfs_unlink` returns `-EIO = -5`,
not `-2`. -/
theorem dfs_unlink_disconnect_failure_keeps_delete_errno_refuted :
    '/' = deref "/user/alice/file.txt" ∧
    (scripted ["/trash-system/keepme"] 7 (-1) 2 (-1)).is_protected "/user/alice/file.txt" = 0 ∧
    rwMount.read_only = 0 ∧
    connectResult (scripted ["/trash-system/keepme"] 7 (-1) 2 (-1)) rwMount
        "/user/alice/file.txt" freshWorld ≠ NULL ∧
    deleteResult (scripted ["/trash-system/keepme"] 7 (-1) 2 (-1)) rwMount
        "/user/alice/file.txt" freshWorld ≠ 0 ∧
    capturedErrno (scripted ["/trash-system/keepme"] 7 (-1) 2 (-1)) rwMount
        "/user/alice/file.txt" freshWorld = 2 ∧
    disconnectResult (scripted ["/trash-system/keepme"] 7 (-1) 2 (-1)) rwMount
        "/user/alice/file.txt" freshWorld ≠ 0 ∧
    (dfs_unlink linux_errno (scripted ["/trash-system/keepme"] 7 (-1) 2 (-1)) rwMount
        "/user/alice/file.txt" freshWorld).1 = some (-5) ∧
    (dfs_unlink linux_errno (scripted ["/trash-system/keepme"] 7 (-1) 2 (-1)) rwMount
        "/user/alice/file.txt" freshWorld).1 ≠
      some (- capturedErrno (scripted ["/trash-system/keepme"] 7 (-1) 2 (-1)) rwMount
        "/user/alice/file.txt" freshWorld) := by
  decide

/-- C2, amended: on an invocation that passes the policy checks and connects, when
the delete call fails with captured error number `E > 0` and disconnect also
fails, `dfs_unlink` returns `-EIO`: the disconnect failure overrides the code of the
delete failure. -/
theorem dfs_unlink_disconnect_failure_overrides_delete_failure (c : errno_h)
    (env : Collaborators) (dfs : dfs_context) (path : String) (w : World)
    (hsep : '/' = deref path)
    (hprot : env.is_protected path = 0)
    (hro : dfs.read_only = 0)
    (hconn : connectResult env dfs path w ≠ NULL)
    (_hdel : deleteResult env dfs path w ≠ 0)
    (_hE : 0 < capturedErrno env dfs path w)
    (hdisc : disconnectResult env dfs path w ≠ 0) :
    (dfs_unlink c env dfs path w).1 = some (- c.EIO) := by
  rw [dfs_unlink_of_connected c env dfs path w hsep hprot hro hconn]
  simp [hdisc, neg32_EIO_eq]

/-- Scenario for the amended C2: delete fails with `errno = 2`, disconnect fails,
and the call returns `-5`. -/
theorem dfs_unlink_disconnect_failure_overrides_delete_failure_witness :
    (dfs_unlink linux_errno (scripted ["/trash-system/keepme"] 7 (-1) 2 (-1)) rwMount
        "/user/alice/file.txt" freshWorld).1 = some (-5) :=
  dfs_unlink_disconnect_failure_overrides_delete_failure linux_errno
    (scripted ["/trash-system/keepme"] 7 (-1) 2 (-1)) rwMount "/user/alice/file.txt" freshWorld
    (by decide) (by decide) (by decide) (by decide) (by decide) (by decide) (by decide)

/-- C3: on an invocation that passes the policy checks and connects, when the
delete call succeeds but disconnect fails, `dfs_unlink` returns `-EIO` and not
`0`. -/
theorem dfs_unlink_disconnect_failure_overrides_success (c : errno_h)
    (env : Collaborators) (dfs : dfs_context) (path : String) (w : World)
    (hsep : '/' = deref path)
    (hprot : env.is_protected path = 0)
    (hro : dfs.read_only = 0)
    (hconn : connectResult env dfs path w ≠ NULL)
    (_hdel : deleteResult env dfs path w = 0)
    (hdisc : disconnectResult env dfs path w ≠ 0) :
    (dfs_unlink c env dfs path w).1 = some (- c.EIO) ∧
    (dfs_unlink c env dfs path w).1 ≠ some 0 := by
  rw [dfs_unlink_of_connected c env dfs path w hsep hprot hro hconn]
  have hpos := c.EIO_pos
  simp [hdisc, neg32_EIO_eq]
  omega

/-- Scenario for C3: the delete succeeds, closing the connection fails, and the
call returns `-5`. -/
theorem dfs_unlink_disconnect_failure_overrides_success_witness :
    (dfs_unlink linux_errno (scripted ["/trash-system/keepme"] 7 0 0 (-1)) rwMount
        "/user/alice/file.txt" freshWorld).1 = some (-5) :=
  (dfs_unlink_disconnect_failure_overrides_success linux_errno
    (scripted ["/trash-system/keepme"] 7 0 0 (-1)) rwMount "/user/alice/file.txt" freshWorld
    (by decide) (by decide) (by decide) (by decide) (by decide) (by decide)).1

/-- C4: on every path for which `is_protected` holds, whatever the mount context,
`dfs_unlink` returns `-EACCES` and calls neither connect nor the delete primitive
nor disconnect: the world it leaves is the one the two logging statements of
lines 27 and 37 leave, with the call log as it was. -/
theorem dfs_unlink_protected_path_denied (c : errno_h) (env : Collaborators)
    (dfs : dfs_context) (path : String) (w : World)
    (hsep : '/' = deref path)
    (hprot : env.is_protected path ≠ 0) :
    dfs_unlink c env dfs path w =
      (some (- c.EACCES),
        callERROR env "Trying to delete protected directory %s" [path]
          (callTRACE1 env "unlink" path w)) ∧
    (dfs_unlink c env dfs path w).2.calls = w.calls ∧
    callsMade c env dfs path w = [] := by
  unfold callsMade
  rw [dfs_unlink_of_protected c env dfs path w hsep hprot, neg32_EACCES]
  simp [callERROR_calls, callTRACE1_calls]

/-- Scenario for C4: `/trash-system/keepme` is protected, the mount is read-write;
the call returns `-13` and makes no call to the client layer. -/
theorem dfs_unlink_protected_path_denied_witness :
    (dfs_unlink linux_errno (scripted ["/trash-system/keepme"] 7 0 0 0) rwMount
        "/trash-system/keepme" freshWorld).1 = some (-13) ∧
    callsMade linux_errno (scripted ["/trash-system/keepme"] 7 0 0 0) rwMount
        "/trash-system/keepme" freshWorld = [] :=
  have h := dfs_unlink_protected_path_denied linux_errno
    (scripted ["/trash-system/keepme"] 7 0 0 0) rwMount "/trash-system/keepme" freshWorld
    (by decide) (by decide)
  ⟨congrArg Prod.fst h.1, h.2.2⟩

/-- C5: on every path, protected or not, when the `read_only` flag of the mount
context is set, `dfs_unlink` returns `-EACCES` and calls neither connect nor the
delete primitive nor disconnect: the world it leaves is the one the trace
statement and the one `ERROR` statement that ran leave, with the call log as it
was. -/
theorem dfs_unlink_read_only_denied (c : errno_h) (env : Collaborators)
    (dfs : dfs_context) (path : String) (w : World)
    (hsep : '/' = deref path)
    (hro : dfs.read_only ≠ 0) :
    dfs_unlink c env dfs path w =
      (some (- c.EACCES),
        callERROR env
          (if env.is_protected path ≠ 0 then "Trying to delete protected directory %s"
           else "HDFS configured read-only, cannot create directory %s")
          [path] (callTRACE1 env "unlink" path w)) ∧
    (dfs_unlink c env dfs path w).2.calls = w.calls ∧
    callsMade c env dfs path w = [] := by
  unfold callsMade
  by_cases hprot : env.is_protected path = 0
  · rw [dfs_unlink_of_read_only c env dfs path w hsep hprot hro, neg32_EACCES]
    simp [hprot, callERROR_calls, callTRACE1_calls]
  · rw [dfs_unlink_of_protected c env dfs path w hsep hprot, neg32_EACCES]
    simp [hprot, callERROR_calls, callTRACE1_calls]

/-- Scenario for C5: an unprotected path on a read-only mount is refused with
`-13` and no call to the client layer. -/
theorem dfs_unlink_read_only_denied_witness :
    (scripted ["/trash-system/keepme"] 7 0 0 0).is_protected "/user/alice/file.txt" = 0 ∧
    (dfs_unlink linux_errno (scripted ["/trash-system/keepme"] 7 0 0 0) roMount
        "/user/alice/file.txt" freshWorld).1 = some (-13) ∧
    callsMade linux_errno (scripted ["/trash-system/keepme"] 7 0 0 0) roMount
        "/user/alice/file.txt" freshWorld = [] :=
  have h := dfs_unlink_read_only_denied linux_errno
    (scripted ["/trash-system/keepme"] 7 0 0 0) roMount "/user/alice/file.txt" freshWorld
    (by decide) (by decide)
  ⟨by decide, congrArg Prod.fst h.1, h.2.2⟩

/-- C6: on an unprotected path of a read-write mount, when connect fails (returns
`NULL`), `dfs_unlink` returns `-EIO`, and the failed connect is the only call it
makes: neither the delete primitive nor disconnect is called. -/
theorem dfs_unlink_connect_failure (c : errno_h) (env : Collaborators)
    (dfs : dfs_context) (path : String) (w : World)
    (hsep : '/' = deref path)
    (hprot : env.is_protected path = 0)
    (hro : dfs.read_only = 0)
    (hconn : connectResult env dfs path w = NULL) :
    (dfs_unlink c env dfs path w).1 = some (- c.EIO) ∧
    callsMade c env dfs path w = [Call.doConnectAsUser dfs.nn_hostname dfs.nn_port NULL] := by
  unfold callsMade
  rw [dfs_unlink_of_connect_fails c env dfs path w hsep hprot hro hconn, neg32_EIO_eq,
    callERROR_calls, connectOutcome_calls, hconn]
  simp

/-- Scenario for C6: the name node cannot be reached; the call returns `-5` after
the one connect attempt. -/
theorem dfs_unlink_connect_failure_witness :
    (dfs_unlink linux_errno (scripted ["/trash-system/keepme"] 0 0 0 0) rwMount
        "/user/alice/file.txt" freshWorld).1 = some (-5) ∧
    callsMade linux_errno (scripted ["/trash-system/keepme"] 0 0 0 0) rwMount
        "/user/alice/file.txt" freshWorld = [Call.doConnectAsUser "namenode" 8020 0] :=
  dfs_unlink_connect_failure linux_errno
    (scripted ["/trash-system/keepme"] 0 0 0 0) rwMount "/user/alice/file.txt" freshWorld
    (by decide) (by decide) (by decide) (by decide)

/-! ## Success, call sequence and range of the result -/

/-- C8: `dfs_unlink` returns `0` if and only if the path is not protected, the
mount is not read-only, connect succeeds, the delete primitive succeeds and
disconnect succeeds. -/
theorem dfs_unlink_returns_zero_iff (c : errno_h) (env : Collaborators)
    (dfs : dfs_context) (path : String) (w : World)
    (hsep : '/' = deref path) :
    (dfs_unlink c env dfs path w).1 = some 0 ↔
      (env.is_protected path = 0 ∧ dfs.read_only = 0 ∧ connectResult env dfs path w ≠ NULL ∧
        deleteResult env dfs path w = 0 ∧ disconnectResult env dfs path w = 0) := by
  have hA := c.EACCES_pos
  have hI := c.EIO_pos
  by_cases hprot : env.is_protected path = 0
  · by_cases hro : dfs.read_only = 0
    · by_cases hconn : connectResult env dfs path w = NULL
      · rw [dfs_unlink_of_connect_fails c env dfs path w hsep hprot hro hconn, neg32_EIO_eq]
        simp [hconn]
        omega
      · rw [dfs_unlink_of_connected c env dfs path w hsep hprot hro hconn]
        by_cases hdisc : disconnectResult env dfs path w = 0
        · by_cases hdel : deleteResult env dfs path w = 0
          · simp [hprot, hro, hconn, hdel, hdisc]
          · by_cases hE : capturedErrno env dfs path w > 0
            · simp [hprot, hro, hconn, hdel, hdisc, hE, neg32_capturedErrno env dfs path w hE]
              omega
            · simp [hprot, hro, hconn, hdel, hdisc, hE, neg32_EIO_eq]
              omega
        · simp [hprot, hro, hconn, hdisc, neg32_EIO_eq]
          omega
    · rw [dfs_unlink_of_read_only c env dfs path w hsep hprot hro, neg32_EACCES]
      simp [hro]
      omega
  · rw [dfs_unlink_of_protected c env dfs path w hsep hprot, neg32_EACCES]
    simp [hprot]
    omega

/-- Scenario for C8: `/user/alice/file.txt` on a read-write, trash-enabled mount,
with connect, trash move and disconnect all succeeding, returns `0`. -/
theorem dfs_unlink_returns_zero_iff_witness :
    rwMount.read_only = 0 ∧ rwMount.usetrash = 1 ∧
    (dfs_unlink linux_errno (scripted ["/trash-system/keepme"] 7 0 0 0) rwMount
        "/user/alice/file.txt" freshWorld).1 = some 0 :=
  ⟨by decide, by decide,
   (dfs_unlink_returns_zero_iff linux_errno (scripted ["/trash-system/keepme"] 7 0 0 0)
     rwMount "/user/alice/file.txt" freshWorld (by decide)).mpr
     ⟨by decide, by decide, by decide, by decide, by decide⟩⟩

/-- C10: whatever the path, the mount context, the outcomes of the collaborators
and the value of `errno`, a value returned by `dfs_unlink` is never positive: it
is `0`, `-EACCES`, `-EIO`, or `-E` for a positive captured error number `E`, and
that negation does not overflow the type `int`. A path that starts with `/`
always yields a returned value. -/
theorem dfs_unlink_result_range (c : errno_h) (env : Collaborators)
    (dfs : dfs_context) (path : String) (w : World) :
    ('/' = deref path → ∃ r, (dfs_unlink c env dfs path w).1 = some r) ∧
    (∀ r, (dfs_unlink c env dfs path w).1 = some r →
      r ≤ 0 ∧ INT_MIN ≤ r ∧
      (r = 0 ∨ r = - c.EACCES ∨ r = - c.EIO ∨
        (0 < capturedErrno env dfs path w ∧ r = - capturedErrno env dfs path w ∧
          neg32 (capturedErrno env dfs path w) = r))) := by
  have hA := c.EACCES_pos
  have hI := c.EIO_pos
  have hA2 := c.EACCES_le
  have hI2 := c.EIO_le
  have hEhi : capturedErrno env dfs path w ≤ INT_MAX :=
    (captureWorld env dfs path w).errno.hi
  unfold INT_MAX at hA2 hI2 hEhi
  unfold INT_MIN
  by_cases hsep : '/' = deref path
  · by_cases hprot : env.is_protected path = 0
    · by_cases hro : dfs.read_only = 0
      · by_cases hconn : connectResult env dfs path w = NULL
        · rw [dfs_unlink_of_connect_fails c env dfs path w hsep hprot hro hconn, neg32_EIO_eq]
          refine ⟨fun _ => ⟨_, rfl⟩, ?_⟩
          intro r hr
          simp at hr
          subst hr
          omega
        · rw [dfs_unlink_of_connected c env dfs path w hsep hprot hro hconn]
          refine ⟨fun _ => ⟨_, rfl⟩, ?_⟩
          intro r hr
          simp only [Option.some.injEq] at hr
          subst hr
          by_cases hdisc : disconnectResult env dfs path w = 0
          · by_cases hdel : deleteResult env dfs path w = 0
            · simp [hdel, hdisc]
            · by_cases hE : capturedErrno env dfs path w > 0
              · rw [if_neg (not_not.mpr hdisc), if_pos hdel, if_pos hE,
                  neg32_capturedErrno env dfs path w hE]
                omega
              · rw [if_neg (not_not.mpr hdisc), if_pos hdel, if_neg hE, neg32_EIO_eq]
                omega
          · rw [if_pos hdisc, neg32_EIO_eq]
            omega
      · rw [dfs_unlink_of_read_only c env dfs path w hsep hprot hro, neg32_EACCES]
        refine ⟨fun _ => ⟨_, rfl⟩, ?_⟩
        intro r hr
        simp at hr
        subst hr
        omega
    · rw [dfs_unlink_of_protected c env dfs path w hsep hprot, neg32_EACCES]
      refine ⟨fun _ => ⟨_, rfl⟩, ?_⟩
      intro r hr
      simp at hr
      subst hr
      omega
  · rw [dfs_unlink_of_assert_fails c env dfs path w hsep]
    refine ⟨fun h => absurd h hsep, ?_⟩
    intro r hr
    simp at hr

/-- Scenario for C10: a failed delete with `errno = 2` returns `-2`, which is not
positive and lies in the range of `int`. -/
theorem dfs_unlink_result_range_witness :
    (dfs_unlink linux_errno (scripted ["/trash-system/keepme"] 7 (-1) 2 0) rwMount
        "/user/alice/file.txt" freshWorld).1 = some (-2) ∧
    (-2 : Int) ≤ 0 ∧ INT_MIN ≤ (-2 : Int) :=
  have h := (dfs_unlink_result_range linux_errno (scripted ["/trash-system/keepme"] 7 (-1) 2 0)
    rwMount "/user/alice/file.txt" freshWorld).2 (-2) (by decide)
  ⟨by decide, h.1, h.2.1⟩

end FuseDfs
